import Mathlib

/-!
Shallow embedding of `src/src-tauri/src/lib.rs` (pocket-prompt-ui, Tauri shell).

The file models the deep-link activation pipeline:
the `PendingDeepLink` state (`Mutex<Option<String>>`) as an `Option String`
with lock acquisition made explicit; the `frontend_ready` command; the
single-instance forward callback with its immediate and spawned delayed
emits; the cold-start argument seeding in `setup`; the `on_open_url`
handler; the global-shortcut toggle; and the fatal/non-fatal structure of
the `setup` closure.
-/

/-- Rust's `str::starts_with` with a string pattern: a case-sensitive
literal prefix test. Modelled at character level, which agrees with
Rust's byte-level test because both strings are valid UTF-8. -/
def starts_with (s p : String) : Bool := p.data.isPrefixOf s.data

/-- An event emission: `app.emit(event, payload)` in the source.
Every activation publish in the source uses the fixed event name
`"deep-link"` with the URL string as payload. -/
structure Emit where
  event : String
  payload : String
deriving DecidableEq, Repr

/-- The `frontend_ready` command (src/src-tauri/src/lib.rs:11-25): the UI
readiness handshake. `lockOk` models whether `state.0.lock()` returns `Ok`; `s` is
the current content of the `PendingDeepLink` mutex. On success the handler
does `pending.take()`: it returns the stored value and clears the state.
On lock failure it logs and returns `None`, leaving the state as it was.
Result is `(returned value, state after the call)`. -/
def frontend_ready (lockOk : Bool) (s : Option String) : Option String × Option String :=
  if lockOk then (s, none) else (none, s)

/-- The store write performed under the lock in cold-start seeding
(src/src-tauri/src/lib.rs:103): `*pending = Some(url)` — an unconditional
overwrite of whatever was stored. -/
def storeSet (url : String) (_s : Option String) : Option String := some url

/-- Cold-start seeding in `setup` (src/src-tauri/src/lib.rs:97-114): read
`args`, inspect `args.get(1)`; if present and it starts with
`"promptvault://"`, lock the state and store the URL; on any other
outcome (no argument, non-matching argument, lock failure) the state is
left as it was. -/
def coldStartSeed (args : List String) (lockOk : Bool) (s : Option String) : Option String :=
  match args[1]? with
  | some url =>
    if starts_with url "promptvault://" then
      if lockOk then storeSet url s else s
    else s
  | none => s

/-- Outcome of one invocation of the `single_instance` callback
(src/src-tauri/src/lib.rs:32-67). `immediateEmits` are the emits performed
synchronously inside the callback; `spawnedEmits` are the emits scheduled
on the detached `std::thread::spawn` thread, tagged with their cumulative
delay in milliseconds from the trigger (the thread sleeps 500 ms, emits,
sleeps another 1000 ms, emits). `store` is the `PendingDeepLink` content,
which this callback never touches. -/
structure SingleInstanceResult where
  immediateEmits : List Emit
  spawnedEmits : List (Nat × Emit)
  windowShowCalls : Nat
  windowFocusCalls : Nat
  store : Option String
deriving DecidableEq, Repr

/-- The `single_instance` callback (src/src-tauri/src/lib.rs:32-67):
if `args.get(1)` exists and starts with `"promptvault://"`, emit
`"deep-link"` with the URL immediately and spawn a thread that re-emits it
after 500 ms and again after a further 1000 ms (cumulative 1500 ms);
otherwise log and emit nothing. Regardless of the match outcome, if the
`"main"` webview window exists, call `show()` and `set_focus()` on it
once. The pending-URL state is never written on this path. -/
def single_instance_callback (args : List String) (windowExists : Bool)
    (s : Option String) : SingleInstanceResult :=
  let p :=
    match args[1]? with
    | some url =>
      if starts_with url "promptvault://" then
        ([Emit.mk "deep-link" url],
         [(500, Emit.mk "deep-link" url), (1500, Emit.mk "deep-link" url)])
      else ([], [])
    | none => ([], [])
  SingleInstanceResult.mk p.1 p.2
    (if windowExists then 1 else 0)
    (if windowExists then 1 else 0)
    s

/-- The `on_open_url` handler (src/src-tauri/src/lib.rs:117-123): when the
OS delivers URLs to the running app, take `event.urls().first()`; if
present, emit `"deep-link"` with it; otherwise do nothing. The handler
never touches the pending-URL state; result is (emits, state after). -/
def on_open_url (urls : List String) (s : Option String) : List Emit × Option String :=
  match urls.head? with
  | some url => ([Emit.mk "deep-link" url], s)
  | none => ([], s)

/-- The action taken by the shortcut handler on the main window. -/
inductive ToggleAction where
  | hide
  | showAndFocus
deriving DecidableEq, Repr

/-- The global-shortcut handler (src/src-tauri/src/lib.rs:141-149):
`window.is_visible()` returns a fallible result, modelled as
`Option Bool`; the source does `is_visible().unwrap_or(false)`, so a
failed query counts as not visible. If visible, hide; else show and
focus. -/
def on_shortcut (is_visible : Option Bool) : ToggleAction :=
  if is_visible.getD false then ToggleAction.hide else ToggleAction.showAndFocus

/-- Environment of one run of the `setup` closure
(src/src-tauri/src/lib.rs:75-154): which fallible steps succeed, and the
process launch arguments. `debugAssertions` models `cfg!(debug_assertions)`
(the log plugin is only installed, with `?`, in debug builds). -/
structure SetupEnv where
  deepLinkRegisterOk : Bool
  debugAssertions : Bool
  schemeRegisterOk : Bool
  args : List String
  storeLockOk : Bool
  logPluginOk : Bool
  mainWindowExists : Bool
  shortcutRegisterOk : Bool
deriving DecidableEq, Repr

/-- How a run of the `setup` closure ends: `ok` with the seeded
pending-URL state, `err` for an error propagated out of `setup` with `?`
(which makes the Tauri builder fail and stops startup), or `panicked` for
the `unwrap()` on the missing `"main"` window. -/
inductive SetupOutcome where
  | ok (store : Option String)
  | err
  | panicked
deriving DecidableEq, Repr

/-- The `setup` closure (src/src-tauri/src/lib.rs:75-154) in source order:
`deep_link().register_all()` failure is logged and swallowed; the
debug-only `register("promptvault")` failure is logged and swallowed;
cold-start seeding runs (all its failures swallowed); `on_open_url` is
registered (infallible); in debug builds the log plugin is installed with
`?` (failure propagates); `get_webview_window("main").unwrap()` panics if
the window is absent; `global_shortcut().on_shortcut(...)?` propagates a
registration failure. Otherwise setup returns `Ok(())`. -/
def setup (env : SetupEnv) : SetupOutcome :=
  let store := coldStartSeed env.args env.storeLockOk none
  if env.debugAssertions && !env.logPluginOk then SetupOutcome.err
  else if !env.mainWindowExists then SetupOutcome.panicked
  else if !env.shortcutRegisterOk then SetupOutcome.err
  else SetupOutcome.ok store

/-- C1: PendingURLStore buffers at most one value with take-and-clear
semantics. After set(A) then set(B), a take (a `frontend_ready` call with
the lock acquired) returns B — never A, since the result is exactly
`some B` — and the next take returns empty; likewise after set(U) alone,
the first take returns U and a second take returns empty. -/
theorem c1_store_take_once (A B U : String) :
    (frontend_ready true (storeSet B (storeSet A none))).1 = some B ∧
    (frontend_ready true (frontend_ready true (storeSet B (storeSet A none))).2).1 = none ∧
    (frontend_ready true (storeSet U none)).1 = some U ∧
    (frontend_ready true (frontend_ready true (storeSet U none)).2).1 = none :=
  ⟨rfl, rfl, rfl, rfl⟩

/-- C2 counterexample: with the store initially empty and the lock
acquired, cold-start arguments ["prog", "app://open?id=7"] leave the
store empty — not holding "app://open?id=7" as the claim states — because
the recognized scheme in the source is "promptvault://", not "app://". -/
theorem c2_counterexample :
    coldStartSeed ["prog", "app://open?id=7"] true none = none ∧
    coldStartSeed ["prog", "app://open?id=7"] true none ≠ some "app://open?id=7" :=
  ⟨rfl, by decide⟩

/-- C2 amended: ColdStartInspector seeds the store by scheme filter, with
the recognized scheme being "promptvault://": for every launch-argument
list, if argument[1] exists and starts with "promptvault://" then the
store is set to exactly that argument, otherwise the store is left empty;
in particular ["prog", "notascheme://x"] and ["prog", "app://open?id=7"]
leave the store empty, and ["prog", "promptvault://open?id=7"] leaves it
holding "promptvault://open?id=7". -/
theorem c2_scheme_filtering (args : List String) :
    (∀ url, args[1]? = some url → starts_with url "promptvault://" = true →
      coldStartSeed args true none = some url) ∧
    (∀ url, args[1]? = some url → starts_with url "promptvault://" = false →
      coldStartSeed args true none = none) ∧
    (args[1]? = none → coldStartSeed args true none = none) ∧
    coldStartSeed ["prog", "notascheme://x"] true none = none ∧
    coldStartSeed ["prog", "app://open?id=7"] true none = none ∧
    coldStartSeed ["prog", "promptvault://open?id=7"] true none
      = some "promptvault://open?id=7" := by
  refine ⟨fun url h hp => ?_, fun url h hp => ?_, fun h => ?_, rfl, rfl, rfl⟩
  · simp [coldStartSeed, h, hp, storeSet]
  · simp [coldStartSeed, h, hp]
  · simp [coldStartSeed, h]

/-- Witness for c2_scheme_filtering at a concrete matching argument. -/
theorem c2_scheme_filtering_witness :
    coldStartSeed ["prog", "promptvault://x"] true none = some "promptvault://x" :=
  (c2_scheme_filtering ["prog", "promptvault://x"]).1 "promptvault://x" rfl rfl

/-- C3: for every single-instance forward whose argument[1] starts with
"promptvault://", exactly three publishes of the "deep-link" event occur,
all with the identical URL payload: one immediate, performed inside the
callback, and two scheduled on the detached spawned thread — which does
not block the callback from returning — at cumulative delays of 500 ms
and 1500 ms from the trigger. -/
theorem c3_three_emissions (args : List String) (url : String)
    (we : Bool) (s : Option String)
    (h1 : args[1]? = some url)
    (h2 : starts_with url "promptvault://" = true) :
    (single_instance_callback args we s).immediateEmits = [Emit.mk "deep-link" url] ∧
    (single_instance_callback args we s).spawnedEmits
      = [(500, Emit.mk "deep-link" url), (1500, Emit.mk "deep-link" url)] ∧
    (single_instance_callback args we s).immediateEmits.length
      + (single_instance_callback args we s).spawnedEmits.length = 3 ∧
    (∀ e ∈ (single_instance_callback args we s).immediateEmits,
      e = Emit.mk "deep-link" url) ∧
    (∀ de ∈ (single_instance_callback args we s).spawnedEmits,
      de.2 = Emit.mk "deep-link" url) := by
  simp [single_instance_callback, h1, h2]

/-- Witness for c3_three_emissions at a concrete matching forward. -/
theorem c3_three_emissions_witness :
    (single_instance_callback ["prog", "promptvault://open?id=7"] true none).immediateEmits
      = [Emit.mk "deep-link" "promptvault://open?id=7"] :=
  (c3_three_emissions ["prog", "promptvault://open?id=7"] "promptvault://open?id=7"
    true none rfl rfl).1

/-- C4: for every single-instance forward whose argument[1] is absent or
does not start with "promptvault://", zero publishes occur (neither
immediate nor spawned) and the pending-URL store is not written, yet the
existing "main" window is still shown and focused exactly once; and the
window raise happens for every argument list, regardless of match
outcome. -/
theorem c4_nonmatching_forward (args : List String) (s : Option String)
    (h : ∀ url, args[1]? = some url → starts_with url "promptvault://" = false) :
    (single_instance_callback args true s).immediateEmits = [] ∧
    (single_instance_callback args true s).spawnedEmits = [] ∧
    (single_instance_callback args true s).store = s ∧
    (single_instance_callback args true s).windowShowCalls = 1 ∧
    (single_instance_callback args true s).windowFocusCalls = 1 ∧
    ∀ args2 : List String,
      (single_instance_callback args2 true s).windowShowCalls = 1 ∧
      (single_instance_callback args2 true s).windowFocusCalls = 1 := by
  refine ⟨?_, ?_, rfl, rfl, rfl, fun args2 => ⟨rfl, rfl⟩⟩ <;>
    cases hh : args[1]? with
    | none => simp [single_instance_callback, hh]
    | some url => simp [single_instance_callback, hh, h url hh]

/-- Witness for c4_nonmatching_forward at the non-matching forward from
the spec example. -/
theorem c4_nonmatching_forward_witness :
    (single_instance_callback ["prog", "http://not-ours"] true none).immediateEmits = [] ∧
    (single_instance_callback ["prog", "http://not-ours"] true none).windowShowCalls = 1 := by
  have h := c4_nonmatching_forward ["prog", "http://not-ours"] none (by
    intro url hu
    have h2 : url = "http://not-ours" := (Option.some.inj hu).symm
    subst h2
    decide)
  exact ⟨h.1, h.2.2.2.1⟩

/-- C5: if the PendingURLStore lock cannot be acquired, the readiness
handshake fails soft: `frontend_ready` returns the empty result instead
of a fatal error, and the stored state is left unchanged. -/
theorem c5_lock_failure_soft (s : Option String) :
    frontend_ready false s = (none, s) := rfl

/-- C6: the `on_open_url` handler, on every invocation: if the supplied
URL list is non-empty it publishes exactly the first URL via the
"deep-link" event, ignoring the rest, and leaves the pending-URL store
unchanged; if no URL is present it is a no-op (no publish, no state
change). -/
theorem c6_open_url_callback (u : String) (rest : List String) (s : Option String) :
    on_open_url (u :: rest) s = ([Emit.mk "deep-link" u], s) ∧
    on_open_url [] s = ([], s) :=
  ⟨rfl, rfl⟩

/-- C7: the shortcut handler acts on the live visibility query: a window
reported visible is hidden, one reported hidden is shown and focused, and
a failed query (`is_visible` returning no answer, unwrapped to false) is
treated as hidden, so the action taken is show-and-focus. -/
theorem c7_shortcut_toggle :
    on_shortcut (some true) = ToggleAction.hide ∧
    on_shortcut (some false) = ToggleAction.showAndFocus ∧
    on_shortcut none = ToggleAction.showAndFocus :=
  ⟨rfl, rfl, rfl⟩

/-- C8 counterexample: a release-build setup run in which shortcut
registration would succeed but the "main" window is absent is still fatal
— the unwrap panics — so shortcut-registration failure is not the only
failure class in the core allowed to be fatal. -/
theorem c8_counterexample :
    setup (SetupEnv.mk true false true ["prog"] true true false true)
      = SetupOutcome.panicked ∧
    (SetupEnv.mk true false true ["prog"] true true false true).shortcutRegisterOk = true ∧
    ∀ s : Option String,
      setup (SetupEnv.mk true false true ["prog"] true true false true)
        ≠ SetupOutcome.ok s :=
  ⟨rfl, rfl, fun _ h => nomatch h⟩

/-- C8 amended: a failure to register the global shortcut during setup is
propagated upward as a setup failure that stops startup, and the
activation-pipeline failures (deep-link registration, store-lock
acquisition, argument anomalies) are swallowed at their origin: in a
release build with the "main" window present, setup errs exactly when
shortcut registration fails and otherwise succeeds for every combination
of the swallowed failures. It is, however, not the only fatal path: a
missing "main" window also aborts startup. -/
theorem c8_shortcut_fatality (env : SetupEnv)
    (hw : env.mainWindowExists = true)
    (hd : env.debugAssertions = false) :
    (env.shortcutRegisterOk = false → setup env = SetupOutcome.err) ∧
    (env.shortcutRegisterOk = true →
      setup env = SetupOutcome.ok (coldStartSeed env.args env.storeLockOk none)) := by
  constructor <;> intro hs <;> simp [setup, hw, hd, hs]

/-- Witness for c8_shortcut_fatality: shortcut-registration failure turns
setup into an error. -/
theorem c8_shortcut_fatality_witness :
    setup (SetupEnv.mk true false true ["prog"] true true true false) = SetupOutcome.err :=
  (c8_shortcut_fatality (SetupEnv.mk true false true ["prog"] true true true false)
    rfl rfl).1 rfl

/-- C9: during setup the main-window handle is unwrapped before the
shortcut handler is registered; every setup run that reaches that point
(in a debug build, the log-plugin step must not have erred first) with no
"main" webview window ends in a panic, aborting startup rather than
failing soft — a fatal path beyond shortcut-registration failure. -/
theorem c9_missing_window_panics (env : SetupEnv)
    (hw : env.mainWindowExists = false)
    (hd : env.debugAssertions = false ∨ env.logPluginOk = true) :
    setup env = SetupOutcome.panicked ∧
    ∀ s : Option String, setup env ≠ SetupOutcome.ok s := by
  have hmain : setup env = SetupOutcome.panicked := by
    rcases hd with h | h <;> simp [setup, hw, h]
  exact ⟨hmain, fun s hcontra => by rw [hmain] at hcontra; exact nomatch hcontra⟩

/-- Witness for c9_missing_window_panics: a debug-build run with the log
plugin fine, the shortcut registration poised to fail, and no "main"
window, panics at the unwrap. -/
theorem c9_missing_window_panics_witness :
    setup (SetupEnv.mk false true false ["prog", "promptvault://x"] true true false false)
      = SetupOutcome.panicked :=
  (c9_missing_window_panics
    (SetupEnv.mk false true false ["prog", "promptvault://x"] true true false false)
    rfl (Or.inr rfl)).1

/-- C10: the recognized-scheme check at both entry points is a
case-sensitive literal prefix test against "promptvault://": every
argument[1] that fails the test — for example by case,
"PROMPTVAULT://x", or by scheme spelling, "app://x" — leaves the store
unwritten at cold start and causes zero publishes at the single-instance
forward, while "promptvault://x" passes the test. -/
theorem c10_case_sensitive_scheme (args : List String) (url : String)
    (s : Option String)
    (h1 : args[1]? = some url)
    (h2 : starts_with url "promptvault://" = false) :
    coldStartSeed args true none = none ∧
    (single_instance_callback args true s).immediateEmits = [] ∧
    (single_instance_callback args true s).spawnedEmits = [] ∧
    starts_with "PROMPTVAULT://x" "promptvault://" = false ∧
    starts_with "app://x" "promptvault://" = false ∧
    starts_with "promptvault://x" "promptvault://" = true := by
  refine ⟨?_, ?_, ?_, by decide, by decide, by decide⟩ <;>
    simp [coldStartSeed, single_instance_callback, h1, h2]

/-- Witness for c10_case_sensitive_scheme at the uppercase variant. -/
theorem c10_case_sensitive_scheme_witness :
    coldStartSeed ["prog", "PROMPTVAULT://x"] true none = none :=
  (c10_case_sensitive_scheme ["prog", "PROMPTVAULT://x"] "PROMPTVAULT://x" none
    rfl (by decide)).1
